import Mathlib

/-!
Verification of the ypy binding layer (y_doc.rs, y_text.rs)

Shallow embedding of the transaction-lifecycle and shared-type projection
layer of the ypy Python binding around the yrs CRDT engine.  The engine
itself (`yrs`, `lib0`) is an external dependency; where the binding
delegates to it, the engine contract is modelled by explicit Lean
definitions or by fields of an `Engine` record.  Definitions mirror the
Rust source in `src/y_doc.rs` and `src/y_text.rs`.
-/

namespace Ypy

/-- Error kinds surfaced to Python by the binding (`PyResult` errors):
`PyValueError` from document construction, `PyTypeError` from shared-type
operations, and the decode error raised by `apply_v1`. -/
inductive YError where
  | valueError (msg : String)
  | typeError (msg : String)
  | decodeError
  deriving DecidableEq, Repr

/-- Mirrors `yrs::OffsetKind` (the text offset unit configured on a document). -/
inductive OffsetKind where
  | bytes
  | utf16
  | utf32
  deriving DecidableEq, Repr

/-- Mirrors `yrs::Options` as configured by `YDoc::new`
(src/y_doc.rs lines 122-143): `client_id`, `offset_kind`, `skip_gc`. -/
structure Options where
  client_id : Nat
  offset_kind : OffsetKind
  skip_gc : Bool
  deriving DecidableEq, Repr

/-- The Rust `Options::default()` with the randomly generated client id made an
explicit argument (the Rust default draws it from a RNG). -/
def Options.default (generatedId : Nat) : Options :=
  { client_id := generatedId, offset_kind := OffsetKind.bytes, skip_gc := false }

/-- Models `raw_offset.to_lowercase().replace("-", "")` from
`YDoc::new` (src/y_doc.rs line 128): ASCII lowercasing of every character
followed by removal of every `-` (replacing each single-character match
of `-` by the empty string deletes exactly the `-` characters). -/
def cleanOffsetKind (s : String) : String :=
  String.mk ((s.data.map Char.toLower).filter (fun c => c ≠ '-'))

/-- Models the `match clean_offset.as_str()` in `YDoc::new`
(src/y_doc.rs lines 129-137): only `utf8`, `utf16`, `utf32` are accepted;
anything else raises `PyValueError`. -/
def parseOffsetKind (raw : String) : Except YError OffsetKind :=
  let clean := cleanOffsetKind raw
  if clean = "utf8" then Except.ok OffsetKind.bytes
  else if clean = "utf16" then Except.ok OffsetKind.utf16
  else if clean = "utf32" then Except.ok OffsetKind.utf32
  else Except.error (YError.valueError
    (clean ++ " is not a valid offset kind (utf8, utf16, or utf32)."))

/-- Engine-side document state.  The merge algorithm, operation
identifiers and wire encodings are external to the binding (the spec's
"document engine"); the binding only needs that a document carries a
state vector and some contents. -/
structure EngineState where
  sv : List (Nat × Nat)
  contents : List Nat
  deriving DecidableEq, Repr

def EngineState.empty : EngineState := { sv := [], contents := [] }

/-- Model of `YTransaction` as cached by the document: the identity of the
underlying mutation context plus its `committed` flag
(src/y_transaction.rs holds the flag; `begin_transaction` reads it). -/
structure YTransactionM where
  id : Nat
  committed : Bool
  deriving DecidableEq, Repr

/-- Model of the `Weak<RefCell<YTransaction>>` stored in `YDocInner.txn`:
`alive` records whether `upgrade()` succeeds (i.e. some strong `Rc`
reference to the transaction still exists). -/
structure WeakTxn where
  txn : YTransactionM
  alive : Bool
  deriving DecidableEq, Repr

/-- Mirrors `YDocInner` (src/y_doc.rs lines 47-50): the engine document
plus the cached weak reference to the current transaction.  `nextTxnId`
supplies the identity of a freshly created mutation context. -/
structure YDocInner where
  engine : EngineState
  txn : Option WeakTxn
  nextTxnId : Nat
  deriving DecidableEq, Repr

/-- Mirrors `YDocInner::begin_transaction` (src/y_doc.rs lines 53-71):
if the cached weak reference upgrades to a live, uncommitted transaction,
return that transaction unchanged; otherwise open a new mutation context,
wrap it, store a weak reference to it, and return it. -/
def YDocInner.begin_transaction (self : YDocInner) : YTransactionM × YDocInner :=
  match self.txn with
  | some w =>
      if w.alive ∧ w.txn.committed = false then
        (w.txn, self)
      else
        let t : YTransactionM := { id := self.nextTxnId, committed := false }
        (t, { self with txn := some { txn := t, alive := true },
                        nextTxnId := self.nextTxnId + 1 })
  | none =>
      let t : YTransactionM := { id := self.nextTxnId, committed := false }
      (t, { self with txn := some { txn := t, alive := true },
                      nextTxnId := self.nextTxnId + 1 })

/-- Iterated `begin_transaction`: the list of transactions returned by
`n` successive calls with no intervening commit or drop. -/
def YDocInner.beginN : Nat → YDocInner → List YTransactionM × YDocInner
  | 0, d => ([], d)
  | n + 1, d =>
      let (t, d') := d.begin_transaction
      let (ts, d'') := YDocInner.beginN n d'
      (t :: ts, d'')

/-- Result of a successful `YDoc::new`: the parsed options together with
the fresh inner document (`Doc::with_options(options)`, empty history,
no cached transaction). -/
structure YDoc where
  options : Options
  inner : YDocInner
  deriving DecidableEq, Repr

/-- Applies the `skip_gc` option and builds the document
(`Doc::with_options(options)` with a fresh inner state). -/
def YDoc.make (options : Options) (skip_gc : Option Bool) : YDoc :=
  let options :=
    match skip_gc with
    | some b => { options with skip_gc := b }
    | none => options
  { options := options
    inner := { engine := EngineState.empty, txn := none, nextTxnId := 0 } }

/-- Mirrors `YDoc::new` (src/y_doc.rs lines 117-153).  `generatedId`
stands for the random client id drawn by `Options::default()`.  Option
parsing happens before any document state is created (the `?` after the
offset match returns the error early); on a bad `offset_kind` the
constructor fails and no document is built. -/
def YDoc.new (generatedId : Nat) (client_id : Option Nat)
    (offset_kind : Option String) (skip_gc : Option Bool) :
    Except YError YDoc :=
  let options := Options.default generatedId
  let options :=
    match client_id with
    | some cid => { options with client_id := cid }
    | none => options
  match offset_kind with
  | some raw =>
      match parseOffsetKind raw with
      | Except.ok offset =>
          Except.ok (YDoc.make { options with offset_kind := offset } skip_gc)
      | Except.error e => Except.error e
  | none => Except.ok (YDoc.make options skip_gc)

/-- The external document engine's decode/merge/encode interface, as far
as the binding uses it.  The wire format itself is out of the binding's
scope, so it is abstracted to an arbitrary decoder and merger. -/
structure Engine where
  decodeUpdate : List Nat → Option (List Nat)
  applyDecoded : EngineState → List Nat → EngineState
  encodeSV : List (Nat × Nat) → List Nat

/-- Modelled from the spec: `YTransaction.apply_v1` lives in
`src/y_transaction.rs`, which is not among the available sources.  Per
the spec, `apply(update_bytes)` "fails with a decode error if the bytes
are not a valid update payload of the expected version; a malformed
payload must not corrupt existing state", and "a failed `import_update`
must not partially apply an update; either the whole payload merges or
none of it does". -/
def apply_v1 (e : Engine) (doc : YDocInner) (diff : List Nat) :
    Except YError YDocInner :=
  match e.decodeUpdate diff with
  | none => Except.error YError.decodeError
  | some u => Except.ok { doc with engine := e.applyDecoded doc.engine u }

/-- Mirrors the free function `apply_update` (src/y_doc.rs lines 352-360):
acquire a transaction via `begin_transaction`, then delegate to
`apply_v1` on the update bytes; a decode failure propagates and the
(possibly updated) transaction cache is all that changed. -/
def apply_update (e : Engine) (doc : YDocInner) (diff : List Nat) :
    Except YError Unit × YDocInner :=
  let (_, doc1) := doc.begin_transaction
  match apply_v1 e doc1 diff with
  | Except.error err => (Except.error err, doc1)
  | Except.ok doc2 => (Except.ok (), doc2)

/-- Modelled from the spec: `YTransactionWrapper.state_vector_v1` lives
in `src/y_transaction.rs`, which is not among the available sources.  Per
the spec, `state_vector()` "serializes the document's current logical
clock per replica into a compact binary form" and is "pure/read-only;
does not mutate state". -/
def state_vector_v1 (e : Engine) (doc : YDocInner) : List Nat :=
  e.encodeSV doc.engine.sv

/-- Mirrors the free function `encode_state_vector`
(src/y_doc.rs lines 297-304): acquire a transaction via
`begin_transaction` (reusing a live one), then encode the state vector
through it. -/
def encode_state_vector (e : Engine) (doc : YDocInner) :
    List Nat × YDocInner :=
  let (_, doc1) := doc.begin_transaction
  (state_vector_v1 e doc1, doc1)

/-- Mirrors `YDoc::transact` (src/y_doc.rs lines 181-190): begin (or
reuse) a transaction, hand it to the Python callback, then
unconditionally clear the document's cached transaction
(`self.inner.borrow_mut().txn = None`) and return the callback's result,
whether it is a normal value or a raised error.  The callback is modelled
as a state transformer over the document that may fail. -/
def YDoc.transact {α : Type}
    (doc : YDocInner)
    (callback : YTransactionM → YDocInner → Except YError α × YDocInner) :
    Except YError α × YDocInner :=
  let (txn, doc1) := doc.begin_transaction
  let (result, doc2) := callback txn doc1
  (result, { doc2 with txn := none })

/-! Section: Shared-type projection: `YText` (src/y_text.rs) -/

/-- UTF-8 byte length of a list of characters — the meaning of
`String::len` in Rust and of `YText::__len__` ("a number of UTF-8
encoded bytes", src/y_text.rs lines 76-83). -/
def utf8Len (cs : List Char) : Nat :=
  (cs.map Char.utf8Size).sum

/-- Whether byte index `i` lies on a character boundary of the UTF-8
encoding of `cs` (including the index one past the end).  Rust's
`String::insert_str` and `String::drain` panic when handed an index that
is not such a boundary. -/
def isBoundary : List Char → Nat → Bool
  | _, 0 => true
  | [], _ + 1 => false
  | c :: cs, i + 1 =>
      if c.utf8Size ≤ i + 1 then isBoundary cs (i + 1 - c.utf8Size) else false

/-- Models Rust `String::insert_str(self, idx, string)` on the
preliminary value (src/y_text.rs line 116): `none` stands for the panic
raised when `idx` is out of bounds or not on a character boundary;
otherwise the chunk's characters are spliced in at byte offset `idx`. -/
def insertStrAt (s : List Char) (idx : Nat) (chunk : List Char) :
    Option (List Char) :=
  if isBoundary s idx then
    some (spliceGo s idx)
  else
    none
where
  spliceGo : List Char → Nat → List Char
    | rest, 0 => chunk ++ rest
    | [], _ + 1 => chunk
    | c :: cs, i + 1 => c :: spliceGo cs (i + 1 - c.utf8Size)

/-- Models Rust `String::drain(idx..idx+len)` on the preliminary value
(src/y_text.rs line 190): `none` stands for the panic raised when either
end of the byte range is out of bounds or not on a character boundary;
otherwise the characters covered by the range are removed. -/
def drainRange (s : List Char) (idx len : Nat) : Option (List Char) :=
  if isBoundary s idx ∧ isBoundary s (idx + len) then
    some (drainGo s idx len)
  else
    none
where
  drainGo : List Char → Nat → Nat → List Char
    | rest, 0, 0 => rest
    | [], 0, _ + 1 => []
    | c :: cs, 0, l + 1 => drainGo cs 0 (l + 1 - c.utf8Size)
    | [], _ + 1, _ => []
    | c :: cs, i + 1, l => c :: drainGo cs (i + 1 - c.utf8Size) l

/-- One item of the engine-side text sequence: a character of text or an
embedded foreign object.  The engine (`yrs::Text`) is external; this is
its logical content as far as the binding observes it through
`to_string`/`len`. -/
inductive TItem where
  | chr (c : Char)
  | emb (v : Nat)
  deriving DecidableEq, Repr

/-- Engine-side integrated text: its logical item sequence together with
the observer registry of the underlying branch node (`observe` /
`unobserve` delegate there), with `nextSub` supplying fresh
subscription ids. -/
structure IText where
  items : List TItem
  subs : List Nat
  nextSub : Nat
  deriving DecidableEq, Repr

/-- Byte length of one engine item: a character counts its UTF-8 size,
an embedded object counts 1. -/
def TItem.len : TItem → Nat
  | TItem.chr c => c.utf8Size
  | TItem.emb _ => 1

/-- Models `yrs::Text::to_string`: concatenates the textual chunks, skipping
embedded objects. -/
def IText.toString (t : IText) : String :=
  String.mk (t.items.filterMap fun
    | TItem.chr c => some c
    | TItem.emb _ => none)

/-- Models `yrs::Text::len`: total byte length of the item sequence. -/
def IText.len (t : IText) : Nat :=
  (t.items.map TItem.len).sum

/-- An integrated text holding exactly the string `s` (no embeds, no
observers): the state reached by integrating a preliminary string. -/
def IText.ofString (s : String) : IText :=
  { items := s.data.map TItem.chr, subs := [], nextSub := 0 }

/-- Splice `new` into the engine item sequence at byte offset `i`
(engine-side cursor arithmetic; offsets past the end clamp). -/
def itemsInsertAt : List TItem → Nat → List TItem → List TItem
  | rest, 0, new => new ++ rest
  | [], _ + 1, new => new
  | x :: xs, i + 1, new => x :: itemsInsertAt xs (i + 1 - x.len) new

/-- Remove `len` bytes starting at byte offset `i` from the engine item
sequence (engine-side `remove_range`). -/
def itemsRemoveRange : List TItem → Nat → Nat → List TItem
  | rest, 0, 0 => rest
  | [], 0, _ + 1 => []
  | x :: xs, 0, l + 1 => itemsRemoveRange xs 0 (l + 1 - x.len)
  | [], _ + 1, _ => []
  | x :: xs, i + 1, l => x :: itemsRemoveRange xs (i + 1 - x.len) l

/-- Mirrors `SharedType<T, P>` from src/shared_types.rs as used by
`YText(pub SharedType<Text, String>)`: a value is either integrated into
a document or a detached preliminary value. -/
inductive SharedType (T P : Type) where
  | integrated (v : T)
  | prelim (v : P)
  deriving DecidableEq, Repr

/-- Mirrors `YText` (src/y_text.rs line 31): `SharedType<Text, String>`. -/
def YText : Type := SharedType IText String

instance : DecidableEq YText := by
  unfold YText
  infer_instance

/-- A Python object handed to the binding, as far as value conversion is
concerned: either representable in the engine's value model (lib0 `Any`)
or not.  Models the argument of `py_into_any` from
src/type_conversions.rs (not among the available sources); per the spec,
conversion fails exactly when "a supplied value cannot be represented in
the engine's value model". -/
inductive PyValue where
  | representable (v : Nat)
  | unrepresentable
  deriving DecidableEq, Repr

/-- Modelled from the spec: `py_into_any` (src/type_conversions.rs, not
among the available sources) converts a Python value into the engine's
value model when possible. -/
def py_into_any : PyValue → Option Nat
  | PyValue.representable v => some v
  | PyValue.unrepresentable => none

/-- Mirrors `YText::parse_attrs` (src/y_text.rs lines 239-254): converts
every attribute value with `py_into_any`, failing with a `PyTypeError`
if any value is not convertible. -/
def parse_attrs (attrs : List (String × PyValue)) :
    Except YError (List (String × Nat)) :=
  attrs.foldr
    (fun kv acc => do
      let rest ← acc
      match py_into_any kv.2 with
      | some v => Except.ok ((kv.1, v) :: rest)
      | none => Except.error (YError.typeError
          "Cannot convert attributes into a standard type"))
    (Except.ok [])

/-- Mirrors `YText::new` (src/y_text.rs lines 47-49): a fresh
preliminary instance initialised from the optional string. -/
def YText.new (init : Option String) : YText :=
  SharedType.prelim (init.getD "")

/-- Mirrors `YText::prelim` (src/y_text.rs lines 57-62). -/
def YText.__prelim_getter : YText → Bool
  | SharedType.prelim _ => true
  | SharedType.integrated _ => false

/-- Mirrors `YText::__str__` (src/y_text.rs lines 65-70). -/
def YText.__str__ : YText → String
  | SharedType.integrated v => v.toString
  | SharedType.prelim v => v

/-- Mirrors `YText::__len__` (src/y_text.rs lines 78-83): byte length in
both variants. -/
def YText.__len__ : YText → Nat
  | SharedType.integrated v => v.len
  | SharedType.prelim v => utf8Len v.data

/-- Models `lib0::any::Any::String(..).to_json(..)`: the JSON encoding
of a string value (quote, escaping quotes and backslashes).  lib0 is an
external dependency; only that the same encoder runs on both variants
matters to the binding. -/
def jsonOfString (s : String) : String :=
  "\"" ++ String.mk (s.data.foldr
    (fun c acc => if c = '"' ∨ c = '\\' then '\\' :: c :: acc else c :: acc)
    []) ++ "\""

/-- Mirrors `YText::to_json` (src/y_text.rs lines 86-90): JSON-encodes
`__str__` (same projection for both variants). -/
def YText.to_json (t : YText) : String :=
  jsonOfString (YText.__str__ t)

/-- Mirrors `YText::insert` (src/y_text.rs lines 93-121).  The outer
`Option` is `none` when the Rust code panics (the preliminary branch
calls `String::insert_str` with no bounds or boundary check); otherwise
the result is the `PyResult` paired with the updated instance.  With
attributes that parse: the integrated branch delegates to the engine,
the preliminary branch fails with `PyTypeError("OOf")`; an attribute
conversion error propagates in both variants; with no attributes the
plain insertion runs. -/
def YText.insert (self : YText) (txn : YTransactionM) (index : Nat)
    (chunk : String) (attributes : Option (List (String × PyValue))) :
    Option (Except YError Unit × YText) :=
  match attributes.map parse_attrs with
  | some (Except.ok _attrs) =>
      match self with
      | SharedType.integrated text =>
          let newItems := itemsInsertAt text.items index (chunk.data.map TItem.chr)
          some (Except.ok (), SharedType.integrated { text with items := newItems })
      | SharedType.prelim _ =>
          some (Except.error (YError.typeError "OOf"), self)
  | some (Except.error e) => some (Except.error e, self)
  | none =>
      match self with
      | SharedType.integrated text =>
          let newItems := itemsInsertAt text.items index (chunk.data.map TItem.chr)
          some (Except.ok (), SharedType.integrated { text with items := newItems })
      | SharedType.prelim s =>
          match insertStrAt s.data index chunk.data with
          | some cs => some (Except.ok (), SharedType.prelim (String.mk cs))
          | none => none

/-- Mirrors `YText::insert_embed` (src/y_text.rs lines 128-150): the
preliminary branch fails outright; the integrated branch converts the
embed (failing with "Content could not be embedded" when it is not
representable) and inserts it, with attributes silently dropped when
they fail to parse (the `if let Some(Ok(attrs))` pattern). -/
def YText.insert_embed (self : YText) (txn : YTransactionM) (index : Nat)
    (embed : PyValue) (attributes : Option (List (String × PyValue))) :
    Except YError Unit × YText :=
  match self with
  | SharedType.integrated text =>
      match py_into_any embed with
      | none => (Except.error (YError.typeError "Content could not be embedded"),
                 self)
      | some content =>
          let newItems := itemsInsertAt text.items index [TItem.emb content]
          (Except.ok (), SharedType.integrated { text with items := newItems })
  | SharedType.prelim _ =>
      (Except.error (YError.typeError
        "Insert embeds requires YText instance to be integrated first."), self)

/-- Mirrors `YText::format` (src/y_text.rs lines 155-174): attributes are
parsed first (a conversion error propagates); then the preliminary branch
fails with the (copy-pasted) "Insert embeds requires YText instance to be
integrated first." message, while the integrated branch delegates to the
engine's `format`, which attaches formatting marks without changing the
text content. -/
def YText.format (self : YText) (txn : YTransactionM) (index len : Nat)
    (attributes : List (String × PyValue)) :
    Except YError Unit × YText :=
  match parse_attrs attributes with
  | Except.ok _attrs =>
      match self with
      | SharedType.integrated _text => (Except.ok (), self)
      | SharedType.prelim _ =>
          (Except.error (YError.typeError
            "Insert embeds requires YText instance to be integrated first."),
           self)
  | Except.error err => (Except.error err, self)

/-- Mirrors `YText::push` (src/y_text.rs lines 177-182): append the chunk
(engine `push` when integrated, `String::push_str` when preliminary;
neither can fail). -/
def YText.push (self : YText) (txn : YTransactionM) (chunk : String) : YText :=
  match self with
  | SharedType.integrated text =>
      SharedType.integrated
        { text with items := text.items ++ chunk.data.map TItem.chr }
  | SharedType.prelim s => SharedType.prelim (s ++ chunk)

/-- Mirrors `YText::delete` (src/y_text.rs lines 186-193).  The outer
`Option` is `none` when the Rust code panics: the preliminary branch
calls `String::drain` with no bounds or boundary check. -/
def YText.delete (self : YText) (txn : YTransactionM) (index len : Nat) :
    Option YText :=
  match self with
  | SharedType.integrated text =>
      some (SharedType.integrated
        { text with items := itemsRemoveRange text.items index len })
  | SharedType.prelim s =>
      match drainRange s.data index len with
      | some cs => some (SharedType.prelim (String.mk cs))
      | none => none

/-- Mirrors `YText::observe` (src/y_text.rs lines 195-223): a preliminary
instance fails with a `PyTypeError`; an integrated instance registers the
callback with the engine (deep or shallow both end in a registration on
the branch node) and returns the fresh subscription id. -/
def YText.observe (self : YText) (deep : Option Bool) :
    Except YError (Nat × YText) :=
  match self with
  | SharedType.integrated text =>
      Except.ok (text.nextSub,
        SharedType.integrated
          { text with subs := text.subs ++ [text.nextSub],
                      nextSub := text.nextSub + 1 })
  | SharedType.prelim _ =>
      Except.error (YError.typeError
        "Cannot observe a preliminary type. Must be added to a YDoc first")

/-- Mirrors `YText::unobserve` (src/y_text.rs lines 225-235): a
preliminary instance fails with a `PyTypeError`; an integrated instance
asks the engine to drop exactly the registration with that id. -/
def YText.unobserve (self : YText) (subscription_id : Nat) :
    Except YError YText :=
  match self with
  | SharedType.integrated text =>
      Except.ok (SharedType.integrated
        { text with subs := text.subs.erase subscription_id })
  | SharedType.prelim _ =>
      Except.error (YError.typeError
        "Cannot unobserve a preliminary type. Must be added to a YDoc first")

/-! Section: Event bridge (src/y_doc.rs lines 362-412, src/y_text.rs lines 257-331)

Getter calls are modelled as state transformers returning the value, the
updated event object, and the number of engine-side computations
(encodings / delta or path traversals) the call performed: a memoized
getter computes on the first call and returns the cache, at zero cost,
afterwards; an unmemoized getter computes on every call. -/

/-- One entry of a per-type delta (src/y_text.rs lines 309-313). -/
inductive DeltaOp where
  | insertOp (s : String)
  | deleteOp (n : Nat)
  | retainOp (n : Nat)
  deriving DecidableEq, Repr

/-- One step of a root-to-target path: a map key or a sequence index. -/
inductive PathSeg where
  | key (k : String)
  | index (n : Nat)
  deriving DecidableEq, Repr

/-- The engine-side `TransactionCleanupEvent` plus the transaction's
pending update: what `AfterTransactionEvent::new` reads. -/
structure TransactionCleanupEventM where
  before_state : List (Nat × Nat)
  after_state : List (Nat × Nat)
  delete_set : List (Nat × Nat)
  update : List Nat
  deriving DecidableEq, Repr

/-- A fixed lib0 v1 encoder for state vectors / delete sets, as far as
the binding observes it (the format itself is external). -/
def encodeV1 (l : List (Nat × Nat)) : List Nat :=
  l.length :: l.foldr (fun p acc => p.1 :: p.2 :: acc) []

/-- Mirrors `AfterTransactionEvent` (src/y_doc.rs lines 362-368): the
four byte buffers, converted to Python objects eagerly. -/
structure AfterTransactionEvent where
  before_state : List Nat
  after_state : List Nat
  delete_set : List Nat
  update : List Nat
  deriving DecidableEq, Repr

/-- Mirrors `AfterTransactionEvent::new` (src/y_doc.rs lines 371-388):
every buffer is encoded once, at construction ("Convert all event data
into Python objects eagerly, so that we don't have to hold on to the
transaction"). -/
def AfterTransactionEvent.new (event : TransactionCleanupEventM) :
    AfterTransactionEvent :=
  { before_state := encodeV1 event.before_state
    after_state := encodeV1 event.after_state
    delete_set := encodeV1 event.delete_set
    update := event.update }

/-- Getter `before_state` (src/y_doc.rs lines 394-397): clones the
cached buffer; no encoding happens. -/
def AfterTransactionEvent.before_stateGet (e : AfterTransactionEvent) :
    List Nat × AfterTransactionEvent × Nat :=
  (e.before_state, e, 0)

/-- Getter `after_state` (src/y_doc.rs lines 399-402). -/
def AfterTransactionEvent.after_stateGet (e : AfterTransactionEvent) :
    List Nat × AfterTransactionEvent × Nat :=
  (e.after_state, e, 0)

/-- Getter `delete_set` (src/y_doc.rs lines 404-407). -/
def AfterTransactionEvent.delete_setGet (e : AfterTransactionEvent) :
    List Nat × AfterTransactionEvent × Nat :=
  (e.delete_set, e, 0)

/-- Method `get_update` (src/y_doc.rs lines 409-411). -/
def AfterTransactionEvent.get_update (e : AfterTransactionEvent) :
    List Nat × AfterTransactionEvent × Nat :=
  (e.update, e, 0)

/-- The engine-side `TextEvent` together with the transaction it was
raised in: what the `YTextEvent` getters read through their raw
pointers. -/
structure TextEventInner where
  target : IText
  path : List PathSeg
  delta : List DeltaOp
  deriving DecidableEq, Repr

/-- Mirrors `YTextEvent` (src/y_text.rs lines 259-264): pointers to the
engine event and transaction plus the two caches, both starting empty. -/
structure YTextEvent where
  inner : TextEventInner
  targetCache : Option IText
  deltaCache : Option (List DeltaOp)
  deriving DecidableEq, Repr

/-- Mirrors `YTextEvent::new` (src/y_text.rs lines 267-276). -/
def YTextEvent.new (inner : TextEventInner) : YTextEvent :=
  { inner := inner, targetCache := none, deltaCache := none }

/-- Mirrors the `target` getter (src/y_text.rs lines 291-300): returns
the cache when present, otherwise computes the target from the engine
event (one computation) and memoizes it. -/
def YTextEvent.targetGet (e : YTextEvent) : IText × YTextEvent × Nat :=
  match e.targetCache with
  | some t => (t, e, 0)
  | none => (e.inner.target, { e with targetCache := some e.inner.target }, 1)

/-- Mirrors the `path` method (src/y_text.rs lines 304-306): it takes
`&self`, computes `self.inner().path()` and returns it — no cache is
consulted or written, so every call performs the computation. -/
def YTextEvent.pathGet (e : YTextEvent) : List PathSeg × YTextEvent × Nat :=
  (e.inner.path, e, 1)

/-- Mirrors the `delta` getter (src/y_text.rs lines 315-331): returns
the cache when present, otherwise computes the delta from the engine
event and transaction (one computation) and memoizes it. -/
def YTextEvent.deltaGet (e : YTextEvent) : List DeltaOp × YTextEvent × Nat :=
  match e.deltaCache with
  | some d => (d, e, 0)
  | none => (e.inner.delta, { e with deltaCache := some e.inner.delta }, 1)

/-! Section: Concrete fixtures used by witnesses -/

/-- A fresh document: empty engine state, no cached transaction. -/
def docW : YDocInner :=
  { engine := EngineState.empty, txn := none, nextTxnId := 0 }

/-- A document whose cached transaction is live and uncommitted. -/
def docLiveW : YDocInner :=
  { engine := { sv := [(1, 2)], contents := [7] }
    txn := some { txn := { id := 5, committed := false }, alive := true }
    nextTxnId := 6 }

/-- A concrete engine: decodes only the empty payload, appends decoded
updates to the contents, encodes state vectors with `encodeV1`. -/
def engineW : Engine :=
  { decodeUpdate := fun l => if l = [] then some [] else none
    applyDecoded := fun s u => { s with contents := s.contents ++ u }
    encodeSV := encodeV1 }

/-- A concrete transaction value (preliminary text operations ignore it). -/
def txnW : YTransactionM := { id := 0, committed := false }

/-- A concrete integrated text with two observer registrations. -/
def itextW : IText :=
  { items := [TItem.chr 'a'], subs := [3, 5], nextSub := 7 }

/-- A concrete engine-side text event. -/
def textEventW : TextEventInner :=
  { target := IText.ofString "abc"
    path := [PathSeg.key "t"]
    delta := [DeltaOp.insertOp "abc"] }

/-! Section: Transaction lifecycle lemmas -/

theorem beginTransaction_of_live (d : YDocInner) (t : YTransactionM)
    (hc : d.txn = some { txn := t, alive := true })
    (hco : t.committed = false) :
    d.begin_transaction = (t, d) := by
  unfold YDocInner.begin_transaction
  rw [hc]
  simp [hco]

theorem beginTransaction_post (d : YDocInner) :
    (d.begin_transaction).2.txn =
      some { txn := (d.begin_transaction).1, alive := true } ∧
    (d.begin_transaction).1.committed = false := by
  unfold YDocInner.begin_transaction
  cases hc : d.txn with
  | none => simp
  | some w =>
      by_cases h : w.alive = true ∧ w.txn.committed = false
      · obtain ⟨ha, hco⟩ := h
        cases w with
        | mk t alive =>
            simp only at ha hco
            subst ha
            simp [hco, hc]
      · simp [h]

theorem beginTransaction_engine (d : YDocInner) :
    (d.begin_transaction).2.engine = d.engine := by
  unfold YDocInner.begin_transaction
  cases d.txn with
  | none => simp
  | some w =>
      by_cases h : w.alive = true ∧ w.txn.committed = false
      · simp [h]
      · simp [h]

theorem beginN_of_live (n : Nat) (d : YDocInner) (t : YTransactionM)
    (hc : d.txn = some { txn := t, alive := true })
    (hco : t.committed = false) :
    YDocInner.beginN n d = (List.replicate n t, d) := by
  induction n with
  | zero => simp [YDocInner.beginN]
  | succ n ih =>
      simp [YDocInner.beginN, beginTransaction_of_live d t hc hco, ih,
        List.replicate_succ]

/-- C1: every call in a sequence of `begin_transaction()` calls on one
document with no intervening commit returns the transaction returned by
the first call; a transaction whose cached weak reference is live and
uncommitted is returned as-is with the document unchanged, and a new
mutation context is opened only when no live, uncommitted handle exists,
in which case the store's cached weak reference is updated to the new
handle. -/
theorem C1_single_transaction_invariant (d : YDocInner) (n : Nat) :
    (∀ t ∈ (YDocInner.beginN (n + 1) d).1, t = (d.begin_transaction).1) ∧
    (∀ w, d.txn = some w → w.alive = true → w.txn.committed = false →
      d.begin_transaction = (w.txn, d)) ∧
    ((∀ w, d.txn = some w → w.alive = false ∨ w.txn.committed = true) →
      (d.begin_transaction).1 = { id := d.nextTxnId, committed := false } ∧
      (d.begin_transaction).2.txn =
        some { txn := { id := d.nextTxnId, committed := false },
               alive := true }) := by
  refine ⟨?_, ?_, ?_⟩
  · intro t ht
    obtain ⟨hpost, hcom⟩ := beginTransaction_post d
    have hrep := beginN_of_live n (d.begin_transaction).2
      (d.begin_transaction).1 hpost hcom
    rcases hbd : d.begin_transaction with ⟨t1, d1⟩
    rw [hbd] at hrep
    simp only [YDocInner.beginN, hbd, hrep, List.mem_cons,
      List.mem_replicate] at ht
    simp only [hbd]
    rcases ht with h | ⟨-, h⟩
    · exact h
    · exact h
  · intro w hw ha hco
    cases w with
    | mk t alive =>
        simp only at ha
        subst ha
        exact beginTransaction_of_live d t hw hco
  · intro hnone
    unfold YDocInner.begin_transaction
    cases hc : d.txn with
    | none => simp
    | some w =>
        have := hnone w hc
        by_cases h : w.alive = true ∧ w.txn.committed = false
        · rcases this with h' | h'
          · rw [h'] at h
            simp at h
          · rw [h'] at h
            simp at h
        · simp [h]

theorem C1_single_transaction_invariant_witness :
    (∀ t ∈ (YDocInner.beginN 2 docW).1, t = (docW.begin_transaction).1) ∧
    (docW.begin_transaction).1 = { id := 0, committed := false } := by
  have h := C1_single_transaction_invariant docW 1
  refine ⟨h.1, ?_⟩
  have h3 := h.2.2 (by intro w hw; simp [docW] at hw)
  simpa [docW] using h3.1

/-! Section: C2: failed import leaves the document unchanged -/

/-- C2: when the update bytes do not decode, `apply_update` fails with a
decode error and the document's engine state — contents and state vector
alike — is exactly what it was before the call; nothing of the payload
is applied. -/
theorem C2_apply_update_decode_error (e : Engine) (doc : YDocInner)
    (diff : List Nat) (h : e.decodeUpdate diff = none) :
    (apply_update e doc diff).1 = Except.error YError.decodeError ∧
    ((apply_update e doc diff).2).engine = doc.engine := by
  unfold apply_update apply_v1
  rcases hbd : doc.begin_transaction with ⟨t1, d1⟩
  have he : d1.engine = doc.engine := by
    have := beginTransaction_engine doc
    rw [hbd] at this
    exact this
  simp [h, he]

theorem C2_apply_update_decode_error_witness :
    (apply_update engineW docW [1, 2, 3]).1 = Except.error YError.decodeError ∧
    ((apply_update engineW docW [1, 2, 3]).2).engine = docW.engine :=
  C2_apply_update_decode_error engineW docW [1, 2, 3] rfl

/-! Section: C3: offset_kind validation -/

/-- C3 (counterexample): the claim holds the token set to be
`{bytes, utf16, utf32}` up to case and separator insensitivity, so it
predicts that constructing a document with `offset_kind = "bytes"`
succeeds; the code rejects it with a `ValueError`, because the accepted
tokens are `utf8`, `utf16` and `utf32`. -/
theorem C3_offset_kind_counterexample :
    YDoc.new 0 none (some "bytes") none =
      Except.error (YError.valueError
        "bytes is not a valid offset kind (utf8, utf16, or utf32).") ∧
    cleanOffsetKind "bytes" ∈ ["bytes", "utf16", "utf32"] := by
  constructor
  · rfl
  · decide

/-- C3 (amended): a document construction with an `offset_kind` argument
succeeds exactly when the argument, lowercased and with every `-`
removed, is one of `utf8`, `utf16`, `utf32`; any other token fails with
a configuration (`ValueError`) error, and no document is created. -/
theorem C3_offset_kind_amended (generatedId : Nat) (client_id : Option Nat)
    (skip_gc : Option Bool) (s : String) :
    ((∃ doc, YDoc.new generatedId client_id (some s) skip_gc =
        Except.ok doc) ↔
      cleanOffsetKind s ∈ ["utf8", "utf16", "utf32"]) ∧
    (∀ err, YDoc.new generatedId client_id (some s) skip_gc =
        Except.error err →
      err = YError.valueError
        (cleanOffsetKind s ++
          " is not a valid offset kind (utf8, utf16, or utf32).")) := by
  by_cases h1 : cleanOffsetKind s = "utf8"
  · simp [YDoc.new, parseOffsetKind, h1]
  · by_cases h2 : cleanOffsetKind s = "utf16"
    · simp [YDoc.new, parseOffsetKind, h1, h2]
    · by_cases h3 : cleanOffsetKind s = "utf32"
      · simp [YDoc.new, parseOffsetKind, h1, h2, h3]
      · simp [YDoc.new, parseOffsetKind, h1, h2, h3]

theorem C3_offset_kind_amended_witness :
    ((∃ doc, YDoc.new 0 none (some "UTF-16") none = Except.ok doc) ↔
      cleanOffsetKind "UTF-16" ∈ ["utf8", "utf16", "utf32"]) ∧
    YError.valueError
        "bogus is not a valid offset kind (utf8, utf16, or utf32)." =
      YError.valueError (cleanOffsetKind "bogus" ++
        " is not a valid offset kind (utf8, utf16, or utf32).") :=
  ⟨(C3_offset_kind_amended 0 none none "UTF-16").1,
   (C3_offset_kind_amended 0 none none "bogus").2
     (YError.valueError
       "bogus is not a valid offset kind (utf8, utf16, or utf32).") rfl⟩

/-! Section: C7: scoped transaction release -/

/-- C7: `YDoc::transact` clears the document's cached transaction on
every exit path — after the callback returns normally and after it
raises — and hands the callback's result (value or error) back to the
caller unchanged. -/
theorem C7_transact_releases {α : Type} (doc : YDocInner)
    (callback : YTransactionM → YDocInner →
      Except YError α × YDocInner) :
    ((YDoc.transact doc callback).2).txn = none ∧
    (YDoc.transact doc callback).1 =
      (callback (doc.begin_transaction).1 (doc.begin_transaction).2).1 := by
  unfold YDoc.transact
  rcases hbd : doc.begin_transaction with ⟨t1, d1⟩
  rcases hcb : callback t1 d1 with ⟨r, d2⟩
  simp [hbd, hcb]

/-! Section: C9: state-vector export is read-only -/

/-- C9: `encode_state_vector` returns the encoding of the document's
state vector and leaves the engine state — contents and state vector —
untouched, even though it acquires a transaction internally; when a
live, uncommitted transaction is in flight the document is returned
entirely unchanged (the handle is reused). -/
theorem C9_encode_state_vector_read_only (e : Engine) (doc : YDocInner) :
    (encode_state_vector e doc).1 = e.encodeSV doc.engine.sv ∧
    ((encode_state_vector e doc).2).engine = doc.engine ∧
    (∀ w, doc.txn = some w → w.alive = true → w.txn.committed = false →
      (encode_state_vector e doc).2 = doc) := by
  refine ⟨?_, ?_, ?_⟩
  · unfold encode_state_vector state_vector_v1
    rcases hbd : doc.begin_transaction with ⟨t1, d1⟩
    have he : d1.engine = doc.engine := by
      have := beginTransaction_engine doc
      rw [hbd] at this
      exact this
    simp [he]
  · unfold encode_state_vector
    rcases hbd : doc.begin_transaction with ⟨t1, d1⟩
    have := beginTransaction_engine doc
    rw [hbd] at this
    exact this
  · intro w hw ha hco
    cases w with
    | mk t alive =>
        simp only at ha
        subst ha
        unfold encode_state_vector
        rw [beginTransaction_of_live doc t hw hco]

theorem C9_encode_state_vector_read_only_witness :
    (encode_state_vector engineW docLiveW).1 =
      engineW.encodeSV docLiveW.engine.sv ∧
    (encode_state_vector engineW docLiveW).2 = docLiveW := by
  have h := C9_encode_state_vector_read_only engineW docLiveW
  exact ⟨h.1, h.2.2 { txn := { id := 5, committed := false }, alive := true }
    rfl rfl rfl⟩

/-! Section: C4: preliminary/integrated behavioral parity for `YText` -/

theorem stringMk_data (s : String) : String.mk s.data = s := by
  cases s
  rfl

theorem itextOfString_toString (s : String) :
    (IText.ofString s).toString = s := by
  unfold IText.ofString IText.toString
  simp only [List.filterMap_map]
  have h : (fun c => (fun
      | TItem.chr c => some c
      | TItem.emb _ => none) (TItem.chr c)) = fun c : Char => some c := rfl
  rw [show ((fun
      | TItem.chr c => some c
      | TItem.emb _ => none) ∘ TItem.chr) = fun c : Char => some c from rfl]
  have hfm : List.filterMap (fun c : Char => some c) s.data = s.data := by
    simp
  rw [hfm]

theorem itextOfString_len (s : String) :
    (IText.ofString s).len = utf8Len s.data := by
  unfold IText.ofString IText.len utf8Len
  simp only [List.map_map]
  rfl

/-- C4: an integrated `YText` holding the same logical string as a
preliminary one is observationally identical through `__str__`,
`__len__` and `to_json`; pushing "hello" into a fresh preliminary
`YText` reads back as "hello", and the same string read from the
integrated state is unchanged. -/
theorem C4_prelim_integrated_parity (s : String) (txn : YTransactionM) :
    YText.__str__ (SharedType.integrated (IText.ofString s)) =
      YText.__str__ (SharedType.prelim s) ∧
    YText.__len__ (SharedType.integrated (IText.ofString s)) =
      YText.__len__ (SharedType.prelim s) ∧
    YText.to_json (SharedType.integrated (IText.ofString s)) =
      YText.to_json (SharedType.prelim s) ∧
    YText.__str__ (YText.push (YText.new none) txn "hello") = "hello" ∧
    YText.__str__ (SharedType.integrated (IText.ofString "hello")) = "hello" := by
  refine ⟨?_, ?_, ?_, ?_, ?_⟩
  · simpa [YText.__str__] using itextOfString_toString s
  · simpa [YText.__len__] using itextOfString_len s
  · simp [YText.to_json, YText.__str__, itextOfString_toString]
  · simp [YText.new, YText.push, YText.__str__]
  · simpa [YText.__str__] using itextOfString_toString "hello"

/-! Section: C5: integrated-only operations on a preliminary `YText` -/

/-- C5 (counterexample): the claim requires the state error raised by
`insert` with formatting attributes on a preliminary `YText` to name the
requirement "must be added to a document first"; the code raises
`PyTypeError("OOf")`, whose message does not contain that phrase (and
the `insert_embed`/`format` messages say "Insert embeds requires YText
instance to be integrated first." instead). -/
theorem C5_prelim_error_message_counterexample :
    YText.insert (SharedType.prelim "") txnW 0 "x"
        (some [("bold", PyValue.representable 1)]) =
      some (Except.error (YError.typeError "OOf"), SharedType.prelim "") ∧
    ("must be added to a document first".data <:+: "OOf".data) = False := by
  constructor
  · rfl
  · simp only [eq_iff_iff, iff_false]
    decide

/-- C5 (amended): on a preliminary `YText`, `insert` with parseable
formatting attributes fails with `PyTypeError("OOf")`, and
`insert_embed` and `format` (with parseable attributes) fail with
`PyTypeError("Insert embeds requires YText instance to be integrated
first.")`; in every case the preliminary content is left unchanged.
None of the messages says "must be added to a document first". -/
theorem C5_prelim_restricted_ops (s : String) (txn : YTransactionM)
    (index len : Nat) (chunk : String) (embed : PyValue)
    (attrs : List (String × PyValue)) (parsed : List (String × Nat))
    (h : parse_attrs attrs = Except.ok parsed) :
    YText.insert (SharedType.prelim s) txn index chunk (some attrs) =
      some (Except.error (YError.typeError "OOf"), SharedType.prelim s) ∧
    YText.insert_embed (SharedType.prelim s) txn index embed (some attrs) =
      (Except.error (YError.typeError
        "Insert embeds requires YText instance to be integrated first."),
       SharedType.prelim s) ∧
    YText.format (SharedType.prelim s) txn index len attrs =
      (Except.error (YError.typeError
        "Insert embeds requires YText instance to be integrated first."),
       SharedType.prelim s) := by
  refine ⟨?_, ?_, ?_⟩
  · simp [YText.insert, h]
  · simp [YText.insert_embed]
  · simp [YText.format, h]

theorem C5_prelim_restricted_ops_witness :
    YText.insert (SharedType.prelim "hi") txnW 0 "x"
        (some [("bold", PyValue.representable 1)]) =
      some (Except.error (YError.typeError "OOf"), SharedType.prelim "hi") ∧
    YText.insert_embed (SharedType.prelim "hi") txnW 0
        (PyValue.representable 2) (some [("bold", PyValue.representable 1)]) =
      (Except.error (YError.typeError
        "Insert embeds requires YText instance to be integrated first."),
       SharedType.prelim "hi") ∧
    YText.format (SharedType.prelim "hi") txnW 0 1
        [("bold", PyValue.representable 1)] =
      (Except.error (YError.typeError
        "Insert embeds requires YText instance to be integrated first."),
       SharedType.prelim "hi") :=
  C5_prelim_restricted_ops "hi" txnW 0 1 "x" (PyValue.representable 2)
    [("bold", PyValue.representable 1)] [("bold", 1)] rfl

/-! Section: C10: preliminary insert/delete panic outside boundaries -/

theorem isBoundary_false_of_lt (cs : List Char) (i : Nat)
    (h : utf8Len cs < i) : isBoundary cs i = false := by
  induction cs generalizing i with
  | nil =>
      cases i with
      | zero => simp [utf8Len] at h
      | succ j => rfl
  | cons c cs ih =>
      cases i with
      | zero => simp [utf8Len] at h
      | succ j =>
          have hsz : 1 ≤ c.utf8Size := c.utf8Size_pos
          unfold isBoundary
          by_cases hle : c.utf8Size ≤ j + 1
          · rw [if_pos hle]
            apply ih
            have : utf8Len (c :: cs) = c.utf8Size + utf8Len cs := by
              simp [utf8Len]
            omega
          · rw [if_neg hle]

/-- C10: the preliminary branches of `YText::insert` and `YText::delete`
perform no bounds or boundary checking of their own: an index past the
UTF-8 byte length of the content, or inside a multi-byte character,
makes `insert` panic, and a byte range either of whose ends is not a
character boundary makes `delete` panic; whenever the indices are
in-bounds character boundaries both operations complete. -/
theorem C10_prelim_panics_out_of_bounds (s : String) (txn : YTransactionM)
    (index len : Nat) (chunk : String) :
    (utf8Len s.data < index →
      YText.insert (SharedType.prelim s) txn index chunk none = none) ∧
    (isBoundary s.data index = false →
      YText.insert (SharedType.prelim s) txn index chunk none = none) ∧
    (isBoundary s.data index = true →
      (YText.insert (SharedType.prelim s) txn index chunk none).isSome =
        true) ∧
    (¬ (isBoundary s.data index = true ∧
        isBoundary s.data (index + len) = true) →
      YText.delete (SharedType.prelim s) txn index len = none) ∧
    ((isBoundary s.data index = true ∧
        isBoundary s.data (index + len) = true) →
      (YText.delete (SharedType.prelim s) txn index len).isSome = true) := by
  refine ⟨?_, ?_, ?_, ?_, ?_⟩
  · intro h
    have hb := isBoundary_false_of_lt s.data index h
    simp [YText.insert, insertStrAt, hb]
  · intro hb
    simp [YText.insert, insertStrAt, hb]
  · intro hb
    simp [YText.insert, insertStrAt, hb]
  · intro h
    simp only [YText.delete, drainRange]
    rw [if_neg h]
  · intro h
    simp only [YText.delete, drainRange]
    rw [if_pos h]
    simp

theorem C10_prelim_panics_out_of_bounds_witness :
    YText.insert (SharedType.prelim "é") txnW 1 "x" none = none ∧
    YText.insert (SharedType.prelim "ab") txnW 5 "x" none = none ∧
    (YText.insert (SharedType.prelim "ab") txnW 1 "x" none).isSome = true ∧
    YText.delete (SharedType.prelim "ab") txnW 1 3 = none ∧
    (YText.delete (SharedType.prelim "ab") txnW 1 1).isSome = true := by
  refine ⟨?_, ?_, ?_, ?_, ?_⟩
  · exact (C10_prelim_panics_out_of_bounds "é" txnW 1 0 "x").2.1 (by decide)
  · exact (C10_prelim_panics_out_of_bounds "ab" txnW 5 0 "x").1 (by decide)
  · exact (C10_prelim_panics_out_of_bounds "ab" txnW 1 0 "x").2.2.1 (by decide)
  · exact (C10_prelim_panics_out_of_bounds "ab" txnW 1 3 "x").2.2.2.1
      (by decide)
  · exact (C10_prelim_panics_out_of_bounds "ab" txnW 1 1 "x").2.2.2.2
      (by decide)

/-! Section: C6: change-report caching -/

/-- C6 (counterexample): the claim holds that the root-to-target path is
computed lazily on first read and memoized, a second read returning the
memoized value without recomputation.  `YTextEvent::path` takes `&self`
and neither consults nor writes a cache: on a concrete event, the second
`path` read performs one engine computation (the claim requires zero),
and the first read leaves the event object — caches included — exactly
as constructed, so nothing was memoized. -/
theorem C6_path_not_memoized_counterexample :
    (((YTextEvent.new textEventW).pathGet.2.1).pathGet).2.2 = 1 ∧
    (YTextEvent.new textEventW).pathGet.2.1 = YTextEvent.new textEventW := by
  constructor
  · rfl
  · rfl

/-- C6 (amended): the four byte buffers of an after-transaction change
report are encoded once, at construction, and every getter read returns
that cached buffer with no further encoding; the per-type `delta` and
`target` are computed lazily on first read and memoized, a second read
returning the memoized value with no recomputation; the `path`, by
contrast, is recomputed on every read (it is never memoized), though
each read returns the same value. -/
theorem C6_change_report_caching (ev : TransactionCleanupEventM)
    (inner : TextEventInner) :
    (AfterTransactionEvent.new ev).before_stateGet =
      (encodeV1 ev.before_state, AfterTransactionEvent.new ev, 0) ∧
    (AfterTransactionEvent.new ev).after_stateGet =
      (encodeV1 ev.after_state, AfterTransactionEvent.new ev, 0) ∧
    (AfterTransactionEvent.new ev).delete_setGet =
      (encodeV1 ev.delete_set, AfterTransactionEvent.new ev, 0) ∧
    (AfterTransactionEvent.new ev).get_update =
      (ev.update, AfterTransactionEvent.new ev, 0) ∧
    (YTextEvent.new inner).deltaGet =
      (inner.delta,
       { YTextEvent.new inner with deltaCache := some inner.delta }, 1) ∧
    ((YTextEvent.new inner).deltaGet.2.1).deltaGet =
      (inner.delta, (YTextEvent.new inner).deltaGet.2.1, 0) ∧
    (YTextEvent.new inner).targetGet =
      (inner.target,
       { YTextEvent.new inner with targetCache := some inner.target }, 1) ∧
    ((YTextEvent.new inner).targetGet.2.1).targetGet =
      (inner.target, (YTextEvent.new inner).targetGet.2.1, 0) ∧
    (YTextEvent.new inner).pathGet = (inner.path, YTextEvent.new inner, 1) ∧
    (((YTextEvent.new inner).pathGet.2.1).pathGet).2.2 = 1 ∧
    (((YTextEvent.new inner).pathGet.2.1).pathGet).1 =
      (YTextEvent.new inner).pathGet.1 := by
  refine ⟨rfl, rfl, rfl, rfl, rfl, rfl, rfl, rfl, rfl, rfl, rfl⟩

/-! Section: C8: observation on preliminary and integrated instances -/

/-- C8: `observe` and `unobserve` on a preliminary `YText` fail with a
state error; on an integrated instance `observe` succeeds and returns a
fresh subscription id now registered with the engine, and `unobserve`
succeeds and cancels exactly the registration identified by the given
id: that id is gone from the registry and every other registration is
untouched. -/
theorem C8_observe_unobserve (s : String) (t : IText) (deep : Option Bool)
    (sid : Nat) (hnodup : t.subs.Nodup) :
    YText.observe (SharedType.prelim s) deep =
      Except.error (YError.typeError
        "Cannot observe a preliminary type. Must be added to a YDoc first") ∧
    YText.unobserve (SharedType.prelim s) sid =
      Except.error (YError.typeError
        "Cannot unobserve a preliminary type. Must be added to a YDoc first") ∧
    YText.observe (SharedType.integrated t) deep =
      Except.ok (t.nextSub, SharedType.integrated
        { t with subs := t.subs ++ [t.nextSub],
                 nextSub := t.nextSub + 1 }) ∧
    YText.unobserve (SharedType.integrated t) sid =
      Except.ok (SharedType.integrated
        { t with subs := t.subs.erase sid }) ∧
    sid ∉ t.subs.erase sid ∧
    (∀ j, j ≠ sid → (j ∈ t.subs.erase sid ↔ j ∈ t.subs)) := by
  refine ⟨rfl, rfl, rfl, rfl, ?_, ?_⟩
  · intro hmem
    exact (((List.Nodup.mem_erase_iff hnodup).mp hmem).1) rfl
  · intro j hj
    exact List.mem_erase_of_ne hj

theorem C8_observe_unobserve_witness :
    YText.observe (SharedType.integrated itextW) none =
      Except.ok (7, SharedType.integrated
        { itextW with subs := itextW.subs ++ [7], nextSub := 8 }) ∧
    YText.unobserve (SharedType.integrated itextW) 3 =
      Except.ok (SharedType.integrated
        { itextW with subs := itextW.subs.erase 3 }) ∧
    3 ∉ itextW.subs.erase 3 := by
  have h := C8_observe_unobserve "" itextW none 3 (by decide)
  exact ⟨h.2.2.1, h.2.2.2.1, h.2.2.2.2.1⟩

end Ypy
